import Mathlib

/-!
Verification development for the VideoLab per-frame processing core
(`src/video1.py`, class `VideoLabPro`).

The Python source is shallowly embedded: images are pixel functions with
explicit dimensions, OpenCV primitives whose internals the source never
relies on (Canny, GaussianBlur, resize, putText) are abstract function
parameters, while the primitives whose arithmetic the spec documents
(`cv2.convertScaleAbs`, `cv2.addWeighted`) are modelled concretely from
their documented per-pixel semantics, with exact rational arithmetic in
place of IEEE doubles.
-/

namespace VideoLab

/-- A decoded image: height, width, and a pixel function
(row, column, channel) → value.  Mirrors an OpenCV `numpy` array of shape
`(h, w, 3)`; 8-bit values are integers in `[0, 255]`. -/
@[ext]
structure Image where
  h : ℕ
  w : ℕ
  pix : ℕ → ℕ → Fin 3 → ℤ

/-- OpenCV `cvRound`: round to nearest integer, ties to even (the rounding
used inside `convertScaleAbs` and `addWeighted`). -/
def cvRound (q : ℚ) : ℤ :=
  if q - ⌊q⌋ = 1/2 then (if 2 ∣ ⌊q⌋ then ⌊q⌋ else ⌊q⌋ + 1) else ⌊q + 1/2⌋

/-- OpenCV `saturate_cast<uchar>` applied to an integer: clamp into `[0, 255]`. -/
def saturate_uchar (z : ℤ) : ℤ :=
  max 0 (min 255 z)

/-- Per-pixel semantics of `cv2.convertScaleAbs(src, alpha, beta)` as used at
`src/video1.py:591`: `saturate_cast<uchar>(|v*alpha + beta|)` (scale, add,
take the absolute value, round, clamp). -/
def convertScaleAbsPixel (alpha beta : ℚ) (v : ℤ) : ℤ :=
  saturate_uchar (cvRound |(v : ℚ) * alpha + beta|)

/-- `cv2.convertScaleAbs` lifted to a whole image (dimensions unchanged). -/
def convertScaleAbs (alpha beta : ℚ) (img : Image) : Image :=
  { img with pix := fun r c ch => convertScaleAbsPixel alpha beta (img.pix r c ch) }

/-- The color-adjust transform as the spec words it:
`clamp(v*contrast + brightness, 0, 255)` rounded to nearest, negative
intermediates clamped to 0.  Written from the spec, for comparison with
`convertScaleAbsPixel`, which is written from the source. -/
def specColorAdjustPixel (contrast brightness : ℚ) (v : ℤ) : ℤ :=
  max 0 (min 255 (cvRound ((v : ℚ) * contrast + brightness)))

/-- Per-pixel semantics of `cv2.addWeighted(src1, a, src2, b, 0)` as used at
`src/video1.py:627`: `saturate_cast<uchar>(v1*a + v2*b)`. -/
def addWeightedPixel (a : ℚ) (v1 : ℤ) (b : ℚ) (v2 : ℤ) : ℤ :=
  saturate_uchar (cvRound ((v1 : ℚ) * a + (v2 : ℚ) * b))

/-- The overlay parameters read by `apply_overlay` (the tk variables
`overlay_x`, `overlay_y`, `overlay_opacity`, `overlay_scale`,
`src/video1.py:613-615`). -/
structure OverlayState where
  x : ℤ
  y : ℤ
  opacity : ℚ
  scale : ℚ

/-- `VideoLabPro.apply_overlay` (`src/video1.py:608-630`), for a loaded
overlay image.  `resize` stands for `cv2.resize(overlay, None, fx=scale,
fy=scale)`, an external primitive whose internals the source does not
depend on.  The scaled overlay is placed at `(x, y)`; if the destination
rectangle exceeds the frame bounds in any direction the frame is returned
unchanged, otherwise the ROI `frame[y:y+h, x:x+w]` is replaced by
`cv2.addWeighted(roi, 1-opacity, overlay, opacity, 0)`. -/
def apply_overlay (resize : ℚ → Image → Image) (ost : OverlayState)
    (olay frame : Image) : Image :=
  let overlay := resize ost.scale olay
  if ost.x + (overlay.w : ℤ) > (frame.w : ℤ) ∨ ost.y + (overlay.h : ℤ) > (frame.h : ℤ) ∨
      ost.x < 0 ∨ ost.y < 0 then
    frame
  else
    { frame with
      pix := fun r c ch =>
        if ost.y ≤ (r : ℤ) ∧ (r : ℤ) < ost.y + (overlay.h : ℤ) ∧
            ost.x ≤ (c : ℤ) ∧ (c : ℤ) < ost.x + (overlay.w : ℤ) then
          addWeightedPixel (1 - ost.opacity) (frame.pix r c ch) ost.opacity
            (overlay.pix ((r : ℤ) - ost.y).toNat ((c : ℤ) - ost.x).toNat ch)
        else frame.pix r c ch }

/-- Python `int()` applied to a float/rational: truncation toward zero. -/
def truncQ (q : ℚ) : ℤ :=
  if 0 ≤ q then ⌊q⌋ else -⌊-q⌋

/-- The effect tags appearing in `apply_effects_pipeline`
(`src/video1.py:579-595`). -/
inductive EffectType
  | canny
  | gaussian_blur
  | color_adjust
  | text
deriving DecidableEq

/-- A pipeline entry as built by `add_effect` (`src/video1.py:662-665`):
a type tag plus an `enabled` flag.  Note `apply_effects_pipeline` never
reads `enabled`. -/
structure Effect where
  type : EffectType
  enabled : Bool

/-- The live control values read by the pipeline at apply time (the tk
variables `canny_low`, `canny_high`, `blur_kernel`, `blur_sigma`,
`brightness`, `contrast`, `text_content`, `text_size`). -/
structure Params where
  canny_low : ℚ
  canny_high : ℚ
  blur_kernel : ℤ
  blur_sigma : ℚ
  brightness : ℚ
  contrast : ℚ
  text_content : String
  text_size : ℚ

/-- The external OpenCV primitives the pipeline calls whose internals the
source never relies on: `cvtColor+Canny+cvtColor` fused (thresholds →
image → image), `GaussianBlur` (kernel size, sigma), `resize` (scale
factor), and `putText` (text, font scale). -/
structure CVPrims where
  canny : ℤ → ℤ → Image → Image
  gaussianBlur : ℤ → ℚ → Image → Image
  resize : ℚ → Image → Image
  putText : String → ℚ → Image → Image

/-- Crop slider state (`crop_x`, `crop_y`, `crop_w`, `crop_h`, all
non-negative tk IntVars) plus the `crop_enabled` flag. -/
structure CropVars where
  x : ℕ
  y : ℕ
  w : ℕ
  h : ℕ
  enabled : Bool

/-- The numpy slice `frame[y:y+h, x:x+w]` (`src/video1.py:604`) for
non-negative slice bounds: indices are clamped to the array's extent, so
an out-of-range crop silently yields a truncated or empty region. -/
def cropSlice (x y w h : ℕ) (img : Image) : Image :=
  { h := min (y + h) img.h - min y img.h
    w := min (x + w) img.w - min x img.w
    pix := fun r c ch => img.pix (y + r) (x + c) ch }

/-- The snapshot of shared state read by one run of
`apply_effects_pipeline`: the effect list, the live effect parameters, the
optional loaded overlay image with its parameters, and the crop state. -/
structure PipelineConfig where
  effects_pipeline : List Effect
  params : Params
  overlay_image : Option Image
  overlay : OverlayState
  crop : CropVars

/-- One iteration of the effect loop in `apply_effects_pipeline`
(`src/video1.py:578-595`): dispatch on the effect's type tag, reading the
live parameter values.  An even blur kernel is coerced to the next odd
value; `canny` thresholds are `int()`-truncated; `text` uses font scale
`text_size/50`. -/
def applyEffect (prims : CVPrims) (p : Params) (frame : Image) (e : Effect) : Image :=
  match e.type with
  | .canny => prims.canny (truncQ p.canny_low) (truncQ p.canny_high) frame
  | .gaussian_blur =>
      let ksize := if p.blur_kernel % 2 = 0 then p.blur_kernel + 1 else p.blur_kernel
      prims.gaussianBlur ksize p.blur_sigma frame
  | .color_adjust => convertScaleAbs p.contrast p.brightness frame
  | .text => prims.putText p.text_content (p.text_size / 50) frame

/-- `VideoLabPro.apply_effects_pipeline` (`src/video1.py:571-606`): fold
the effect list over a copy of the frame, then composite the overlay if an
overlay image is loaded, then crop if enabled. -/
def apply_effects_pipeline (prims : CVPrims) (cfg : PipelineConfig) (frame : Image) : Image :=
  let processed := cfg.effects_pipeline.foldl (applyEffect prims cfg.params) frame
  let processed :=
    match cfg.overlay_image with
    | some olay => apply_overlay prims.resize cfg.overlay olay processed
    | none => processed
  if cfg.crop.enabled then
    cropSlice cfg.crop.x cfg.crop.y cfg.crop.w cfg.crop.h processed
  else processed

/-- Python truthiness of `not self.current_frame` when `current_frame` is
`None` or a numpy array (`src/video1.py:733`): `not None` is `True`; `not`
of a one-element array negates that element's truth value; `not` of a
multi-element array raises `ValueError` ("The truth value of an array with
more than one element is ambiguous").  An empty array is falsy. -/
def notTruthyFrame : Option Image → Except String Bool
  | none => .ok true
  | some img =>
      if img.h * img.w * 3 = 0 then .ok true
      else if img.h * img.w * 3 = 1 then .ok (img.pix 0 0 0 = 0)
      else .error "ValueError"

/-- The arithmetic of `set_aspect_ratio` after its guard
(`src/video1.py:736-756`): if the frame is wider than the requested ratio,
keep the height and derive the width, else keep the width and derive the
height; offsets center the rectangle with `//2` (floor division).  Returns
`(x_offset, y_offset, new_w, new_h)`. -/
def aspectRect (frame_w frame_h : ℕ) (w_ratio h_ratio : ℤ) : ℤ × ℤ × ℤ × ℤ :=
  if (frame_w : ℚ) / (frame_h : ℚ) > (w_ratio : ℚ) / (h_ratio : ℚ) then
    let new_h : ℤ := frame_h
    let new_w : ℤ := truncQ ((new_h : ℚ) * (w_ratio : ℚ) / (h_ratio : ℚ))
    (Int.fdiv ((frame_w : ℤ) - new_w) 2, 0, new_w, new_h)
  else
    let new_w : ℤ := frame_w
    let new_h : ℤ := truncQ ((new_w : ℚ) * (h_ratio : ℚ) / (w_ratio : ℚ))
    (0, Int.fdiv ((frame_h : ℤ) - new_h) 2, new_w, new_h)

/-- Crop slider state with `ℤ` coordinates, as `set_aspect_ratio` writes it. -/
structure CropSetting where
  x : ℤ
  y : ℤ
  w : ℤ
  h : ℤ
  enabled : Bool

/-- `VideoLabPro.set_aspect_ratio` (`src/video1.py:731-757`): the guard
`if not self.current_frame` evaluates Python truthiness of the current
frame (raising `ValueError` for a real multi-element frame); when the
guard passes and a frame is present, the computed centered rectangle is
written into the crop sliders and crop is enabled. -/
def set_aspect_ratio (current_frame : Option Image) (cv : CropSetting)
    (w_ratio h_ratio : ℤ) : Except String CropSetting :=
  match notTruthyFrame current_frame with
  | .error e => .error e
  | .ok true => .ok cv
  | .ok false =>
      match current_frame with
      | none => .ok cv
      | some frame =>
          let r := aspectRect frame.w frame.h w_ratio h_ratio
          .ok ⟨r.1, r.2.1, r.2.2.1, r.2.2.2, true⟩

/-- A parsed JSON value, as returned by Python's `json.load`. -/
inductive JVal
  | jnull
  | jbool (b : Bool)
  | jnum (q : ℚ)
  | jstr (s : String)
  | jarr (xs : List JVal)
  | jobj (fields : List (String × JVal))

/-- Lookup of a key in a JSON object's field list (first match). -/
def jlookup : List (String × JVal) → String → Option JVal
  | [], _ => none
  | (k, v) :: rest, key => if k = key then some v else jlookup rest key

/-- Python `value.get(key, default)`: succeeds with the looked-up field (or
the default) when `value` is a dict, raises `AttributeError` otherwise. -/
def pyGet (v : JVal) (key : String) (default : JVal) : Except String JVal :=
  match v with
  | .jobj fields => .ok ((jlookup fields key).getD default)
  | _ => .error "AttributeError"

/-- The in-memory project state touched by `load_project`
(`src/video1.py:1016-1030`): the four aggregate fields and the eight
scalar control variables.  Python is dynamically typed and the restore
assigns raw JSON-derived values, so every field holds a `JVal`. -/
structure ProjState where
  effects_pipeline : JVal
  overlay_params : JVal
  crop_params : JVal
  markers : JVal
  canny_low : JVal
  canny_high : JVal
  blur_kernel : JVal
  blur_sigma : JVal
  brightness : JVal
  contrast : JVal
  text_content : JVal
  text_size : JVal

/-- Outcome of a project-load attempt: whether the file could be opened and
parsed as JSON. -/
inductive LoadInput
  | ioError
  | parsed (j : JVal)

/-- The scalar-parameter restore sequence of `load_project`
(`src/video1.py:1023-1030`): eight `params.get(...)` calls feeding the tk
variables, executed in source order; the first call that raises aborts the
sequence, leaving the assignments made so far in place (the caller's
`except` swallows the exception).  Returns the state after the sequence
and whether it completed. -/
def restoreParams (st : ProjState) (params : JVal) : ProjState × Bool :=
  match pyGet params "canny_low" (.jnum 50) with
  | .error _ => (st, false)
  | .ok v1 =>
    let st := { st with canny_low := v1 }
    match pyGet params "canny_high" (.jnum 150) with
    | .error _ => (st, false)
    | .ok v2 =>
      let st := { st with canny_high := v2 }
      match pyGet params "blur_kernel" (.jnum 5) with
      | .error _ => (st, false)
      | .ok v3 =>
        let st := { st with blur_kernel := v3 }
        match pyGet params "blur_sigma" (.jnum 1) with
        | .error _ => (st, false)
        | .ok v4 =>
          let st := { st with blur_sigma := v4 }
          match pyGet params "brightness" (.jnum 0) with
          | .error _ => (st, false)
          | .ok v5 =>
            let st := { st with brightness := v5 }
            match pyGet params "contrast" (.jnum 1) with
            | .error _ => (st, false)
            | .ok v6 =>
              let st := { st with contrast := v6 }
              match pyGet params "text_content" (.jstr "Sample Text") with
              | .error _ => (st, false)
              | .ok v7 =>
                let st := { st with text_content := v7 }
                match pyGet params "text_size" (.jnum 30) with
                | .error _ => (st, false)
                | .ok v8 => ({ st with text_size := v8 }, true)

/-- `VideoLabPro.load_project` (`src/video1.py:1003-1041`): open and parse
the file; restore the four aggregate fields via `project_data.get`, then
the scalar parameters via `params.get`.  Any exception is caught by the
surrounding `try/except`, which shows an error dialog and keeps whatever
assignments already happened.  Returns the resulting state and `true` iff
the load completed ("Project loaded"). -/
def load_project (st : ProjState) (inp : LoadInput) : ProjState × Bool :=
  match inp with
  | .ioError => (st, false)
  | .parsed j =>
    match pyGet j "effects_pipeline" (.jarr []) with
    | .error _ => (st, false)
    | .ok ep =>
      let st := { st with effects_pipeline := ep }
      match pyGet j "overlay_params" st.overlay_params with
      | .error _ => (st, false)
      | .ok ov =>
        let st := { st with overlay_params := ov }
        match pyGet j "crop_params" st.crop_params with
        | .error _ => (st, false)
        | .ok cp =>
          let st := { st with crop_params := cp }
          match pyGet j "markers" (.jarr []) with
          | .error _ => (st, false)
          | .ok mk =>
            let st := { st with markers := mk }
            match pyGet j "parameters" (.jobj []) with
            | .error _ => (st, false)
            | .ok params => restoreParams st params

/-- The final value of `export_status_var` after an export worker run. -/
inductive ExportOutcome
  | complete
  | failed
deriving DecidableEq

/-- The frame loop shared by both export workers
(`src/video1.py:910-916` and `945-953`): for each index, seek and read;
on success (`ret` true) run the pipeline and write the result; on decode
failure silently skip the frame and continue.  Returns the frames written
to the sink, in order. -/
def exportLoop (prims : CVPrims) (cfg : PipelineConfig) (decode : ℕ → Option Image) :
    List ℕ → List Image
  | [] => []
  | i :: rest =>
      match decode i with
      | some f => apply_effects_pipeline prims cfg f :: exportLoop prims cfg decode rest
      | none => exportLoop prims cfg decode rest

/-- `VideoLabPro._export_video_worker` (`src/video1.py:892-928`): iterate
indices `0..frame_count-1`, write each successfully-decoded processed
frame, then release the writer and report "Export complete".  `cv2`'s
`read` reports failure through its `ret` flag rather than an exception, so
the `except` branch (which would report "Export failed") is not reached by
a decode failure. -/
def export_video_worker (prims : CVPrims) (cfg : PipelineConfig)
    (decode : ℕ → Option Image) (frame_count : ℕ) : List Image × ExportOutcome :=
  (exportLoop prims cfg decode (List.range frame_count), .complete)

/-- `VideoLabPro._export_sequence_worker` (`src/video1.py:940-964`): the
same loop with an indexed-PNG sink; returns the (index, image) pairs
written and the reported outcome. -/
def export_sequence_worker (prims : CVPrims) (cfg : PipelineConfig)
    (decode : ℕ → Option Image) (frame_count : ℕ) :
    List (ℕ × Image) × ExportOutcome :=
  (((List.range frame_count).filterMap fun i =>
      (decode i).map fun f => (i, apply_effects_pipeline prims cfg f)), .complete)

/-- The playback state touched by `step_frame`: current index, the raw
current frame, and the processed frame shown in the preview. -/
structure PlayerState where
  current_frame_idx : ℤ
  current_frame : Option Image
  processed_frame : Option Image

/-- The clamp in `step_frame` (`src/video1.py:547`):
`max(0, min(frame_count - 1, idx + delta))`. -/
def clampIdx (frame_count : ℕ) (t : ℤ) : ℤ :=
  max 0 (min ((frame_count : ℤ) - 1) t)

/-- `VideoLabPro.step_frame` (`src/video1.py:542-555`), for a loaded
video.  Clamps the target index; when unchanged, nothing happens and no
decode is issued.  When changed, the index is updated, the frame at the
new index is requested from the decoder; on success the current frame is
replaced and `update_preview_display` recomputes the processed frame via
`apply_effects_pipeline` (`src/video1.py:638`).  Returns the new state and
the list of indices requested from the decoder. -/
def step_frame (prims : CVPrims) (cfg : PipelineConfig) (decode : ℤ → Option Image)
    (frame_count : ℕ) (delta : ℤ) (st : PlayerState) : PlayerState × List ℤ :=
  let new_idx := clampIdx frame_count (st.current_frame_idx + delta)
  if new_idx = st.current_frame_idx then (st, [])
  else
    match decode new_idx with
    | some f =>
        (⟨new_idx, some f, some (apply_effects_pipeline prims cfg f)⟩, [new_idx])
    | none => ({ st with current_frame_idx := new_idx }, [new_idx])

/-- A constant test image, used to instantiate theorems at concrete inputs. -/
def constImage (h w : ℕ) (v : ℤ) : Image :=
  ⟨h, w, fun _ _ _ => v⟩

/-- Identity stand-ins for the external OpenCV primitives, used to
instantiate theorems at concrete inputs. -/
def idPrims : CVPrims :=
  ⟨fun _ _ i => i, fun _ _ i => i, fun _ i => i, fun _ _ i => i⟩

/-- The source's initial control values (`src/video1.py:161-405`). -/
def defaultParams : Params :=
  ⟨50, 150, 5, 1, 0, 1, "Sample Text", 30⟩

/-- A baseline pipeline snapshot: empty effect list, no overlay, crop
disabled, initial control values. -/
def cfg0 : PipelineConfig :=
  ⟨[], defaultParams, none, ⟨10, 10, 1, 1⟩, ⟨0, 0, 640, 480, false⟩⟩

/-- The parameter state with the blur kernel slider set to `k`. -/
def withBlur (p : Params) (k : ℤ) : Params :=
  { p with blur_kernel := k }

/-- A pipeline snapshot with the blur kernel slider set to `k`. -/
def cfgWithBlur (cfg : PipelineConfig) (k : ℤ) : PipelineConfig :=
  { cfg with params := withBlur cfg.params k }

/-- The in-memory project state at application start
(`src/video1.py:42-60` and the tk variables' initial values). -/
def stDefault : ProjState :=
  ⟨.jarr [], .jobj [], .jobj [], .jarr [], .jnum 50, .jnum 150, .jnum 5,
   .jnum 1, .jnum 0, .jnum 1, .jstr "Sample Text", .jnum 30⟩

/-- A well-formed JSON project document whose `parameters` field has the
wrong shape (a number instead of an object). -/
def badDoc : JVal :=
  .jobj [("effects_pipeline", .jarr [.jstr "canny"]), ("parameters", .jnum 5)]

/-- A black 1920×1080 frame. -/
def frame1080 : Image :=
  ⟨1080, 1920, fun _ _ _ => 0⟩

/-- Helper: `saturate_uchar` is the identity on in-range 8-bit values. -/
theorem saturate_uchar_of_mem (z : ℤ) (h0 : 0 ≤ z) (h255 : z ≤ 255) :
    saturate_uchar z = z := by
  unfold saturate_uchar
  omega

/-- Helper: `cvRound` is the identity on integers. -/
theorem cvRound_intCast (z : ℤ) : cvRound (z : ℚ) = z := by
  unfold cvRound
  rw [Int.floor_intCast, sub_self, if_neg (by norm_num : ¬((0 : ℚ) = 1/2))]
  rw [show ((z : ℚ) + 1/2) = (1/2 : ℚ) + (z : ℤ) by ring]
  rw [Int.floor_add_int]
  norm_num

/-- Claim C1: for every input frame and every fixed snapshot of the effect
list, effect parameters, overlay image and parameters, and crop
parameters, two runs of `apply_effects_pipeline` on the same inputs
produce byte-identical output frames (the pipeline is a pure function of
its snapshot and input frame). -/
theorem pipeline_deterministic (prims : CVPrims) (cfg1 cfg2 : PipelineConfig)
    (f1 f2 : Image) (hcfg : cfg1 = cfg2) (hf : f1 = f2) :
    apply_effects_pipeline prims cfg1 f1 = apply_effects_pipeline prims cfg2 f2 := by
  rw [hcfg, hf]

/-- Witness for `pipeline_deterministic` at a concrete snapshot and frame. -/
theorem pipeline_deterministic_witness :
    apply_effects_pipeline idPrims cfg0 (constImage 2 2 7)
      = apply_effects_pipeline idPrims cfg0 (constImage 2 2 7) :=
  pipeline_deterministic idPrims cfg0 cfg0 (constImage 2 2 7) (constImage 2 2 7) rfl rfl

/-- Claim C2 counterexample: at channel value 0 with contrast 1 and
brightness −100 (all within the claim's ranges), the code yields 100 (the
negative intermediate −100 is passed through absolute value), while the
claim's formula clamps it to 0. -/
theorem color_adjust_counterexample :
    convertScaleAbsPixel 1 (-100) 0 = 100 ∧ specColorAdjustPixel 1 (-100) 0 = 0 ∧
      convertScaleAbsPixel 1 (-100) 0 ≠ specColorAdjustPixel 1 (-100) 0 := by
  refine ⟨?_, ?_, ?_⟩ <;>
    norm_num [convertScaleAbsPixel, specColorAdjustPixel, cvRound, saturate_uchar]

/-- Claim C2 (amended): the color-adjust effect maps each channel value `v`
to `clamp(round(|v*contrast + brightness|), 0, 255)`; whenever the
intermediate `v*contrast + brightness` is non-negative this agrees with
the claimed `clamp(v*contrast + brightness, 0, 255)`, but negative
intermediates are reflected by the absolute value, not clamped to 0. -/
theorem color_adjust_nonneg_agrees (c b : ℚ) (img : Image) (r col : ℕ) (ch : Fin 3)
    (hc0 : 0 ≤ c) (hc3 : c ≤ 3) (hbl : -100 ≤ b) (hbr : b ≤ 100)
    (hnn : 0 ≤ (img.pix r col ch : ℚ) * c + b) :
    (convertScaleAbs c b img).pix r col ch = specColorAdjustPixel c b (img.pix r col ch) := by
  simp only [convertScaleAbs, convertScaleAbsPixel, specColorAdjustPixel, saturate_uchar,
    abs_of_nonneg hnn]

/-- Witness for `color_adjust_nonneg_agrees` at contrast 1, brightness 0,
on a constant image. -/
theorem color_adjust_nonneg_agrees_witness :
    (convertScaleAbs 1 0 (constImage 2 2 7)).pix 0 0 0 = specColorAdjustPixel 1 0 ((constImage 2 2 7).pix 0 0 0) :=
  color_adjust_nonneg_agrees 1 0 (constImage 2 2 7) 0 0 0 (by norm_num) (by norm_num)
    (by norm_num) (by norm_num) (by norm_num [constImage])

/-- Helper for C8: one effect application is unchanged when the blur kernel
slider moves from an even `k` to `k+1` (the even value is coerced to the
next odd value; no other effect reads the kernel). -/
theorem applyEffect_withBlur_even (prims : CVPrims) (p : Params) (k : ℤ)
    (hk : k % 2 = 0) (frame : Image) (e : Effect) :
    applyEffect prims (withBlur p k) frame e
      = applyEffect prims (withBlur p (k + 1)) frame e := by
  rcases e with ⟨t, en⟩
  cases t <;> simp only [applyEffect, withBlur]
  rw [if_pos hk, if_neg (by omega)]

/-- Helper for C8: the whole effect fold is unchanged when the blur kernel
slider moves from an even `k` to `k+1`. -/
theorem foldl_withBlur_even (prims : CVPrims) (p : Params) (k : ℤ) (hk : k % 2 = 0) :
    ∀ (l : List Effect) (frame : Image),
      l.foldl (applyEffect prims (withBlur p k)) frame
        = l.foldl (applyEffect prims (withBlur p (k + 1))) frame := by
  intro l
  induction l with
  | nil => intro frame; rfl
  | cons e rest ih =>
      intro frame
      simp only [List.foldl_cons, applyEffect_withBlur_even prims p k hk frame e, ih]

/-- Claim C8: for every frame, every sigma > 0, and every even kernel size
`k`, running the pipeline with blur kernel `k` produces a frame
byte-identical to running it with kernel `k+1` (the even size is coerced
to the next odd value rather than rejected). -/
theorem blur_even_kernel_eq (prims : CVPrims) (cfg : PipelineConfig) (frame : Image)
    (k : ℤ) (hk : k % 2 = 0) (hs : 0 < cfg.params.blur_sigma) :
    apply_effects_pipeline prims (cfgWithBlur cfg k) frame
      = apply_effects_pipeline prims (cfgWithBlur cfg (k + 1)) frame := by
  simp only [apply_effects_pipeline, cfgWithBlur]
  rw [foldl_withBlur_even prims cfg.params k hk cfg.effects_pipeline frame]

/-- Witness for `blur_even_kernel_eq` with a one-blur pipeline, kernel 4. -/
theorem blur_even_kernel_eq_witness :
    apply_effects_pipeline idPrims
        (cfgWithBlur ⟨[⟨.gaussian_blur, true⟩], defaultParams, none, ⟨10, 10, 1, 1⟩,
          ⟨0, 0, 640, 480, false⟩⟩ 4) (constImage 2 2 7)
      = apply_effects_pipeline idPrims
        (cfgWithBlur ⟨[⟨.gaussian_blur, true⟩], defaultParams, none, ⟨10, 10, 1, 1⟩,
          ⟨0, 0, 640, 480, false⟩⟩ (4 + 1)) (constImage 2 2 7) :=
  blur_even_kernel_eq idPrims _ (constImage 2 2 7) 4 (by decide) (by norm_num [defaultParams])

/-- Claim C4: if the destination rectangle of the scaled overlay at
`(x, y)` exceeds the frame bounds in any direction, `apply_overlay`
returns the frame byte-identical to the input; an in-bounds rectangle
exactly touching an edge (`x + w = frame_w` or `y + h = frame_h`, with
`x, y ≥ 0`) passes the bounds check and every pixel of the destination
rectangle is composited by the `addWeighted` blend, not dropped. -/
theorem overlay_bounds_noop_and_edge (resize : ℚ → Image → Image) (ost : OverlayState)
    (olay frame : Image) :
    (ost.x + ((resize ost.scale olay).w : ℤ) > (frame.w : ℤ) ∨
        ost.y + ((resize ost.scale olay).h : ℤ) > (frame.h : ℤ) ∨ ost.x < 0 ∨ ost.y < 0 →
        apply_overlay resize ost olay frame = frame) ∧
    (ost.x + ((resize ost.scale olay).w : ℤ) ≤ (frame.w : ℤ) →
        ost.y + ((resize ost.scale olay).h : ℤ) ≤ (frame.h : ℤ) →
        0 ≤ ost.x → 0 ≤ ost.y →
        (ost.x + ((resize ost.scale olay).w : ℤ) = (frame.w : ℤ) ∨
          ost.y + ((resize ost.scale olay).h : ℤ) = (frame.h : ℤ)) →
        ∀ (r c : ℕ) (ch : Fin 3),
          ost.y ≤ (r : ℤ) → (r : ℤ) < ost.y + ((resize ost.scale olay).h : ℤ) →
          ost.x ≤ (c : ℤ) → (c : ℤ) < ost.x + ((resize ost.scale olay).w : ℤ) →
          (apply_overlay resize ost olay frame).pix r c ch
            = addWeightedPixel (1 - ost.opacity) (frame.pix r c ch) ost.opacity
                ((resize ost.scale olay).pix ((r : ℤ) - ost.y).toNat
                  ((c : ℤ) - ost.x).toNat ch)) := by
  constructor
  · intro h
    simp only [apply_overlay]
    rw [if_pos h]
  · intro hw hh hx hy hedge r c ch hr1 hr2 hc1 hc2
    simp only [apply_overlay]
    rw [if_neg (by omega)]
    simp only [Image.pix]
    rw [if_pos ⟨hr1, hr2, hc1, hc2⟩]

/-- Witness for `overlay_bounds_noop_and_edge`: a 2×2 overlay is a no-op at
`x = -1` on a 2×2 frame and is blended on a 3×2 frame at `(0, 0)`, where
the rectangle touches only the right edge (`x + w = frame_w` while
`y + h < frame_h`). -/
theorem overlay_bounds_noop_and_edge_witness :
    apply_overlay (fun _ i => i) ⟨-1, 0, 1/2, 1⟩ (constImage 2 2 3) (constImage 2 2 7)
        = constImage 2 2 7 ∧
    (apply_overlay (fun _ i => i) ⟨0, 0, 1/2, 1⟩ (constImage 2 2 3)
          (constImage 3 2 7)).pix 0 0 0
        = addWeightedPixel (1 - 1/2) ((constImage 3 2 7).pix 0 0 0) (1/2)
            ((constImage 2 2 3).pix ((0 : ℤ) - 0).toNat ((0 : ℤ) - 0).toNat 0) :=
  ⟨(overlay_bounds_noop_and_edge (fun _ i => i) ⟨-1, 0, 1/2, 1⟩ (constImage 2 2 3)
      (constImage 2 2 7)).1 (by norm_num),
   (overlay_bounds_noop_and_edge (fun _ i => i) ⟨0, 0, 1/2, 1⟩ (constImage 2 2 3)
      (constImage 3 2 7)).2 (by norm_num [constImage]) (by norm_num [constImage])
      (by norm_num) (by norm_num) (Or.inl (by norm_num [constImage])) 0 0 0
      (by norm_num) (by norm_num [constImage]) (by norm_num)
      (by norm_num [constImage])⟩

/-- Helper for C9: the `addWeighted` blend at opacity 0 returns the ROI
pixel unchanged (for in-range 8-bit values). -/
theorem addWeightedPixel_opacity_zero (v u : ℤ) (h0 : 0 ≤ v) (h255 : v ≤ 255) :
    addWeightedPixel (1 - 0) v 0 u = v := by
  unfold addWeightedPixel
  rw [show ((v : ℚ) * (1 - 0) + (u : ℚ) * 0) = ((v : ℤ) : ℚ) by ring]
  rw [cvRound_intCast, saturate_uchar_of_mem v h0 h255]

/-- Helper for C9: the `addWeighted` blend at opacity 1 returns the overlay
pixel exactly (for in-range 8-bit values). -/
theorem addWeightedPixel_opacity_one (v u : ℤ) (h0 : 0 ≤ u) (h255 : u ≤ 255) :
    addWeightedPixel (1 - 1) v 1 u = u := by
  unfold addWeightedPixel
  rw [show ((v : ℚ) * (1 - 1) + (u : ℚ) * 1) = ((u : ℤ) : ℚ) by ring]
  rw [cvRound_intCast, saturate_uchar_of_mem u h0 h255]

/-- Claim C9: for an in-bounds destination rectangle and 8-bit pixel data,
compositing with opacity 0 leaves the frame byte-identical to the input,
and compositing with opacity 1 replaces every destination-rectangle pixel
exactly with the scaled overlay pixel (per the
`roi*(1-opacity) + overlay*opacity` blend rounded to nearest). -/
theorem overlay_opacity_extremes (resize : ℚ → Image → Image) (ost : OverlayState)
    (olay frame : Image)
    (hin : ¬(ost.x + ((resize ost.scale olay).w : ℤ) > (frame.w : ℤ) ∨
        ost.y + ((resize ost.scale olay).h : ℤ) > (frame.h : ℤ) ∨ ost.x < 0 ∨ ost.y < 0))
    (hfr : ∀ (r c : ℕ) (ch : Fin 3), 0 ≤ frame.pix r c ch ∧ frame.pix r c ch ≤ 255)
    (hov : ∀ (r c : ℕ) (ch : Fin 3), 0 ≤ (resize ost.scale olay).pix r c ch ∧
        (resize ost.scale olay).pix r c ch ≤ 255) :
    (ost.opacity = 0 → apply_overlay resize ost olay frame = frame) ∧
    (ost.opacity = 1 → ∀ (r c : ℕ) (ch : Fin 3),
        ost.y ≤ (r : ℤ) → (r : ℤ) < ost.y + ((resize ost.scale olay).h : ℤ) →
        ost.x ≤ (c : ℤ) → (c : ℤ) < ost.x + ((resize ost.scale olay).w : ℤ) →
        (apply_overlay resize ost olay frame).pix r c ch
          = (resize ost.scale olay).pix ((r : ℤ) - ost.y).toNat
              ((c : ℤ) - ost.x).toNat ch) := by
  constructor
  · intro hop
    simp only [apply_overlay]
    rw [if_neg hin]
    refine Image.ext rfl rfl ?_
    funext r c ch
    simp only [Image.pix]
    by_cases hcond : ost.y ≤ (r : ℤ) ∧ (r : ℤ) < ost.y + ((resize ost.scale olay).h : ℤ) ∧
        ost.x ≤ (c : ℤ) ∧ (c : ℤ) < ost.x + ((resize ost.scale olay).w : ℤ)
    · rw [if_pos hcond, hop]
      exact addWeightedPixel_opacity_zero _ _ (hfr r c ch).1 (hfr r c ch).2
    · rw [if_neg hcond]
  · intro hop r c ch hr1 hr2 hc1 hc2
    simp only [apply_overlay]
    rw [if_neg hin]
    simp only [Image.pix]
    rw [if_pos ⟨hr1, hr2, hc1, hc2⟩, hop]
    exact addWeightedPixel_opacity_one _ _ (hov _ _ ch).1 (hov _ _ ch).2

/-- Witness for `overlay_opacity_extremes`: a 2×2 overlay on a 2×2 frame at
`(0, 0)` with opacity 0 (frame unchanged) and opacity 1 (overlay pixel). -/
theorem overlay_opacity_extremes_witness :
    apply_overlay (fun _ i => i) ⟨0, 0, 0, 1⟩ (constImage 2 2 3) (constImage 2 2 7)
        = constImage 2 2 7 ∧
    (apply_overlay (fun _ i => i) ⟨0, 0, 1, 1⟩ (constImage 2 2 3)
          (constImage 2 2 7)).pix 0 0 0
        = (constImage 2 2 3).pix ((0 : ℤ) - 0).toNat ((0 : ℤ) - 0).toNat 0 :=
  ⟨(overlay_opacity_extremes (fun _ i => i) ⟨0, 0, 0, 1⟩ (constImage 2 2 3)
      (constImage 2 2 7) (by norm_num [constImage])
      (fun _ _ _ => ⟨by norm_num [constImage], by norm_num [constImage]⟩)
      (fun _ _ _ => ⟨by norm_num [constImage], by norm_num [constImage]⟩)).1 rfl,
   (overlay_opacity_extremes (fun _ i => i) ⟨0, 0, 1, 1⟩ (constImage 2 2 3)
      (constImage 2 2 7) (by norm_num [constImage])
      (fun _ _ _ => ⟨by norm_num [constImage], by norm_num [constImage]⟩)
      (fun _ _ _ => ⟨by norm_num [constImage], by norm_num [constImage]⟩)).2 rfl
      0 0 0 (by norm_num) (by norm_num [constImage]) (by norm_num)
      (by norm_num [constImage])⟩

/-- Helper for C3: the export frame loop writes exactly the successfully
decoded frames, processed in order. -/
theorem exportLoop_eq_filterMap (prims : CVPrims) (cfg : PipelineConfig)
    (decode : ℕ → Option Image) :
    ∀ l : List ℕ, exportLoop prims cfg decode l
      = l.filterMap fun i => (decode i).map (apply_effects_pipeline prims cfg) := by
  intro l
  induction l with
  | nil => rfl
  | cons i rest ih =>
      cases hd : decode i <;> simp [exportLoop, hd, ih, List.filterMap_cons]

/-- Claim C3 counterexample: a one-frame export whose only frame fails to
decode does not terminate with a failure outcome carrying the last good
index — the frame is skipped and the run is reported as complete. -/
theorem export_failure_reported_as_success :
    (export_video_worker idPrims cfg0 (fun _ => none) 1).2 = ExportOutcome.complete ∧
    (export_video_worker idPrims cfg0 (fun _ => none) 1).1 = [] ∧
    (fun _ => (none : Option Image)) 0 = (none : Option Image) := by
  exact ⟨rfl, rfl, rfl⟩

/-- Claim C3 (amended): on a per-frame decode failure neither export worker
terminates or reports a failure — the failed frame is silently skipped,
the loop continues, the frames written are exactly the successfully
decoded frames processed in order, and the run is always reported as
complete (success); no last-successful-frame index is reported. -/
theorem export_skips_failures_and_completes (prims : CVPrims) (cfg : PipelineConfig)
    (decode : ℕ → Option Image) (n : ℕ) :
    export_video_worker prims cfg decode n
      = ((List.range n).filterMap (fun i => (decode i).map (apply_effects_pipeline prims cfg)),
          ExportOutcome.complete) ∧
    (export_sequence_worker prims cfg decode n).2 = ExportOutcome.complete := by
  refine ⟨?_, rfl⟩
  unfold export_video_worker
  rw [exportLoop_eq_filterMap]

/-- Claim C5: on a loaded 1920×1080 frame with ratio 1:1 the
`set_aspect_ratio` guard `if not self.current_frame` raises `ValueError`
(numpy truthiness of a multi-element array), so the crop rectangle is
never set — while the arithmetic after the guard, had it been reached,
computes exactly the claimed largest centered square
`(x=420, y=0, w=1080, h=1080)`. -/
theorem set_aspect_ratio_guard_bug :
    set_aspect_ratio (some frame1080) ⟨0, 0, 640, 480, false⟩ 1 1
        = Except.error "ValueError" ∧
    aspectRect 1920 1080 1 1 = (420, 0, 1080, 1080) := by
  constructor
  · norm_num [set_aspect_ratio, notTruthyFrame, frame1080]
  · norm_num [aspectRect, truncQ]
    decide

/-- Claim C6: whenever a real video frame is loaded (a multi-element image
array), every call to `set_aspect_ratio` raises `ValueError` in its guard
before computing or setting anything, so the aspect-ratio presets never
update the crop rectangle. -/
theorem set_aspect_ratio_raises_on_frame (img : Image) (cv : CropSetting) (wr hr : ℤ)
    (hsize : 1 < img.h * img.w * 3) :
    set_aspect_ratio (some img) cv wr hr = Except.error "ValueError" := by
  have h : notTruthyFrame (some img) = Except.error "ValueError" := by
    simp only [notTruthyFrame]
    rw [if_neg (by omega), if_neg (by omega)]
  unfold set_aspect_ratio
  rw [h]

/-- Witness for `set_aspect_ratio_raises_on_frame` on a 2×2 frame. -/
theorem set_aspect_ratio_raises_on_frame_witness :
    set_aspect_ratio (some (constImage 2 2 0)) ⟨0, 0, 640, 480, false⟩ 16 9
      = Except.error "ValueError" :=
  set_aspect_ratio_raises_on_frame (constImage 2 2 0) ⟨0, 0, 640, 480, false⟩ 16 9
    (by norm_num [constImage])

/-- Claim C7 counterexample: loading a well-formed JSON project document
whose `parameters` field is a number fails (the error dialog is shown),
yet the effects-pipeline list has already been replaced by the document's
value — a failed load does not leave all in-memory state untouched. -/
theorem load_project_corrupts_on_failure :
    (load_project stDefault (.parsed badDoc)).2 = false ∧
    (load_project stDefault (.parsed badDoc)).1.effects_pipeline = .jarr [.jstr "canny"] ∧
    stDefault.effects_pipeline = .jarr [] ∧
    (load_project stDefault (.parsed badDoc)).1.effects_pipeline ≠ stDefault.effects_pipeline := by
  refine ⟨rfl, rfl, rfl, ?_⟩
  intro h
  rw [show (load_project stDefault (.parsed badDoc)).1.effects_pipeline
      = JVal.jarr [.jstr "canny"] from rfl] at h
  rw [show stDefault.effects_pipeline = JVal.jarr [] from rfl] at h
  simp at h

/-- Claim C7 (amended): a load attempt that fails while opening or parsing
the file, or whose parsed document is not a JSON object, leaves all
in-memory project state exactly as it was; but a top-level JSON object of
the wrong shape can fail partway through restoration, leaving the effect
list, overlay, crop and marker fields already replaced while the scalar
parameters set after the failing access keep their prior values. -/
theorem load_failure_before_restore_preserves_state (st : ProjState) (j : JVal)
    (hobj : ∀ fields, j ≠ .jobj fields) :
    load_project st .ioError = (st, false) ∧ load_project st (.parsed j) = (st, false) := by
  refine ⟨rfl, ?_⟩
  cases j with
  | jobj fields => exact absurd rfl (hobj fields)
  | jnull => rfl
  | jbool b => rfl
  | jnum q => rfl
  | jstr s => rfl
  | jarr xs => rfl

/-- Witness for `load_failure_before_restore_preserves_state` on a numeric
top-level document. -/
theorem load_failure_preserves_state_witness :
    load_project stDefault .ioError = (stDefault, false) ∧
    load_project stDefault (.parsed (.jnum 3)) = (stDefault, false) :=
  load_failure_before_restore_preserves_state stDefault (.jnum 3)
    (fun _ h => JVal.noConfusion h)

/-- Claim C10: for a loaded video with `frame_count ≥ 1`, `step_frame`
clamps the target index into `[0, frame_count-1]`; if the clamped index
equals the current one, no decode is requested and the state is unchanged;
otherwise the frame at the new index is requested, and on successful
decode the pipeline runs on it and the index, current frame and processed
frame are all updated. -/
theorem step_frame_spec (prims : CVPrims) (cfg : PipelineConfig) (decode : ℤ → Option Image)
    (frame_count : ℕ) (delta : ℤ) (st : PlayerState) (hN : 1 ≤ frame_count) :
    (0 ≤ clampIdx frame_count (st.current_frame_idx + delta) ∧
      clampIdx frame_count (st.current_frame_idx + delta) ≤ (frame_count : ℤ) - 1) ∧
    (clampIdx frame_count (st.current_frame_idx + delta) = st.current_frame_idx →
      step_frame prims cfg decode frame_count delta st = (st, [])) ∧
    (clampIdx frame_count (st.current_frame_idx + delta) ≠ st.current_frame_idx →
      ∀ f, decode (clampIdx frame_count (st.current_frame_idx + delta)) = some f →
        step_frame prims cfg decode frame_count delta st
          = (⟨clampIdx frame_count (st.current_frame_idx + delta), some f,
              some (apply_effects_pipeline prims cfg f)⟩,
             [clampIdx frame_count (st.current_frame_idx + delta)])) := by
  refine ⟨⟨?_, ?_⟩, ?_, ?_⟩
  · simp only [clampIdx]
    exact le_max_left 0 _
  · simp only [clampIdx]
    exact max_le (by omega) (min_le_left _ _)
  · intro heq
    simp only [step_frame]
    rw [if_pos heq]
  · intro hne f hdec
    simp only [step_frame]
    rw [if_neg hne, hdec]

/-- Witness for `step_frame_spec`: stepping forward by 1 from index 0 of a
2-frame video with a decoder that always succeeds. -/
theorem step_frame_spec_witness :
    step_frame idPrims cfg0 (fun _ => some (constImage 1 1 0)) 2 1 ⟨0, none, none⟩
      = (⟨clampIdx 2 (0 + 1), some (constImage 1 1 0),
          some (apply_effects_pipeline idPrims cfg0 (constImage 1 1 0))⟩,
         [clampIdx 2 (0 + 1)]) :=
  (step_frame_spec idPrims cfg0 (fun _ => some (constImage 1 1 0)) 2 1 ⟨0, none, none⟩
      (by decide)).2.2 (by decide) (constImage 1 1 0) rfl

end VideoLab
